import Mathlib

/-!
Shallow embedding of `src/modules/@angular/router/src/router_module.ts`:
the router bootstrap coordinator.  Pure provider-selection functions
(`provideLocationStrategy`, `provideForRootGuard`, the `forRoot` /
`forChild` provider lists, `setupRouter`) are embedded as Lean functions;
the two-phase startup protocol of `RouterInitializer` is embedded as an
explicit state machine whose steps correspond to the `appInitializer`
body, the `afterPreactivation` interception, and `bootstrapListener`.
JavaScript promise / RxJS-subject state is made explicit: a promise is a
`Bool` flag recording whether its `resolve` has been invoked, and the
`resultOfPreactivationDone` subject is a record of its emitted values and
its completion flag (after `complete()`, `next` is a no-op, as in RxJS).
Opaque runtime objects (snapshots, handlers, tokens, platform locations,
component types) are represented by `Nat`.
-/

namespace RouterBoot

/-- Opaque `RouterStateSnapshot` objects (the coordinator never inspects them). -/
abbrev RouterStateSnapshot := Nat

/-- Opaque error-handler functions. -/
abbrev ErrorHandlerFn := Nat

/-- Opaque DI tokens for custom preloading strategies. -/
abbrev PreloadToken := Nat

/-- Opaque `PlatformLocation` objects. -/
abbrev PlatformLoc := Nat

/-- Opaque root component types. -/
abbrev ComponentType := Nat

/-- The `ExtraOptions` configuration record (`router_module.ts` lines 211-236).
All five recognized keys are optional; `none` models an absent key.
JavaScript truthiness is applied where the source tests a value:
a boolean option is truthy iff it is `some true`; an object-valued option
(`errorHandler`, `preloadingStrategy`) is truthy iff present. -/
structure ExtraOptions where
  enableTracing : Option Bool := none
  useHash : Option Bool := none
  initialNavigation : Option Bool := none
  errorHandler : Option ErrorHandlerFn := none
  preloadingStrategy : Option PreloadToken := none
deriving Repr, DecidableEq

/-- The empty options record `{}`. -/
def ExtraOptions.empty : ExtraOptions := {}

/-- The two concrete location strategies, each seeded with the platform
location and the base href passed to its constructor. -/
inductive LocationStrategy where
  | path (platformLoc : PlatformLoc) (baseHref : String)
  | hash (platformLoc : PlatformLoc) (baseHref : String)
deriving Repr, DecidableEq

/-- Whether a strategy is the fragment-based (hash) kind. -/
def LocationStrategy.isHashBased : LocationStrategy → Bool
  | .hash _ _ => true
  | .path _ _ => false

/-- The base href a strategy was seeded with. -/
def LocationStrategy.seededBaseHref : LocationStrategy → String
  | .hash _ b => b
  | .path _ b => b

/-- The platform location a strategy was seeded with. -/
def LocationStrategy.seededPlatformLoc : LocationStrategy → PlatformLoc
  | .hash p _ => p
  | .path p _ => p

/-- `provideLocationStrategy` (lines 169-173): `options.useHash ? new
HashLocationStrategy(...) : new PathLocationStrategy(...)`.  `useHash` is
truthy exactly when it is `some true`. -/
def provideLocationStrategy (platformLocationStrategy : PlatformLoc)
    (baseHref : String) (options : ExtraOptions) : LocationStrategy :=
  if options.useHash = some true then
    LocationStrategy.hash platformLocationStrategy baseHref
  else
    LocationStrategy.path platformLocationStrategy baseHref

/-- Opaque `Router` instances, for the ancestor-scoped lookup fed to the
root guard. -/
abbrev RouterHandle := Nat

/-- `provideForRootGuard` (lines 175-181): throws for a non-null router,
returns the marker string otherwise.  The thrown `Error` is modelled as
`Except.error` carrying the message. -/
def provideForRootGuard (router : Option RouterHandle) : Except String String :=
  match router with
  | some _ =>
      Except.error
        "RouterModule.forRoot() called twice. Lazy loaded modules should use RouterModule.forChild() instead."
  | none => Except.ok "guarded"

/-- Opaque route entries.  Route tables are lists of routes. -/
abbrev Route := Nat

/-- Modelled from the spec: `flatten` is imported from `./utils/collection`,
whose source is not part of this repository snapshot.  Per the spec, the
flattened route table is "the concatenation of all contributed route tables
in registration order". -/
def flatten (a : List (List Route)) : List Route := a.flatten

/-- Router lifecycle events (`e` in the tracing subscription): an opaque
payload together with its constructor name and `toString` rendering. -/
structure Event where
  ctorName : String
  descr : String
  payload : Nat
deriving Repr, DecidableEq

/-- A subscriber registered on the router's `events` stream.  The tracing
subscriber installed by `setupRouter` only writes to the console; every
other subscriber is identified by an id. -/
inductive Subscriber where
  | tracing
  | other (id : Nat)
deriving Repr, DecidableEq

/-- The `Router` instance as far as `setupRouter` configures it: the flat
route config passed to the constructor, the error handler (the constructor
installs a default, line 246 overrides it), and the ordered list of
subscribers on its `events` stream. -/
structure RouterInstance where
  config : List Route
  errorHandler : ErrorHandlerFn
  subscribers : List Subscriber
deriving Repr, DecidableEq

/-- The error handler the `Router` constructor installs before `setupRouter`
applies any override. -/
def defaultErrorHandler : ErrorHandlerFn := 0

/-- `new Router(null, ..., flatten(config))` (lines 242-243): a fresh
instance with the flattened config, the default error handler and no
subscribers yet. -/
def newRouter (config : List (List Route)) : RouterInstance :=
  { config := flatten config, errorHandler := defaultErrorHandler, subscribers := [] }

/-- `setupRouter` (lines 238-259): constructs the router, overrides
`errorHandler` when `opts.errorHandler` is (truthily) present, and when
`opts.enableTracing` is truthy subscribes the console-logging observer to
the event stream. -/
def setupRouter (config : List (List Route)) (opts : ExtraOptions) : RouterInstance :=
  let r := newRouter config
  let r := match opts.errorHandler with
    | some h => { r with errorHandler := h }
    | none => r
  if opts.enableTracing = some true then
    { r with subscribers := r.subscribers ++ [Subscriber.tracing] }
  else r

/-- Later subscriptions to the event stream (other consumers of
`router.events`) append in subscription order. -/
def subscribeAll (r : RouterInstance) (subs : List Subscriber) : RouterInstance :=
  { r with subscribers := r.subscribers ++ subs }

/-- Emitting one event on the stream delivers it to every subscriber in
subscription order (RxJS Subject delivery). -/
def deliverEvent (subs : List Subscriber) (e : Event) : List (Subscriber × Event) :=
  subs.map (fun s => (s, e))

/-- Emitting a sequence of events: all deliveries, in emission order. -/
def deliverAll (subs : List Subscriber) (events : List Event) : List (Subscriber × Event) :=
  events.flatMap (deliverEvent subs)

/-- The deliveries a run of events produces to the non-tracing subscribers
of a router, in order. -/
def otherDeliveries (r : RouterInstance) (events : List Event) : List (Subscriber × Event) :=
  (deliverAll r.subscribers events).filter (fun p => p.1 ≠ Subscriber.tracing)

/-- One console log group produced by the tracing subscriber for one event
(lines 250-255): the group header string, the `toString` line and the raw
event. -/
structure LogEntry where
  header : String
  line : String
  raw : Event
deriving Repr, DecidableEq

/-- What the tracing callback logs for one event. -/
def logOf (e : Event) : LogEntry :=
  { header := "Router Event: " ++ e.ctorName, line := e.descr, raw := e }

/-- The console log a run of events produces on a router: one entry per
delivery to the tracing subscriber, in delivery order. -/
def traceLog (r : RouterInstance) (events : List Event) : List LogEntry :=
  ((deliverAll r.subscribers events).filter (fun p => p.1 = Subscriber.tracing)).map
    (fun p => logOf p.2)

/-! ## Provider model: the DI registrations made by this module. -/

/-- The DI tokens appearing in the provider lists of `router_module.ts`. -/
inductive Token where
  | locationTok
  | urlSerializer
  | routerTok
  | routerOutletMap
  | activatedRoute
  | ngModuleFactoryLoader
  | routerPreloader
  | noPreloading
  | preloadAllModules
  | routerConfiguration
  | routerForRootGuard
  | locationStrategy
  | preloadingStrategyTok
  | analyzeForEntryComponents
  | routesTok
  | routerInitializerClass
  | appInit
  | routerInit
  | appBootstrapListenerTok
deriving Repr, DecidableEq

/-- The chosen target of the `PreloadingStrategy` `useExisting` provider. -/
inductive PreloadSelection where
  | noPreloading
  | custom (t : PreloadToken)
deriving Repr, DecidableEq

/-- The recipe attached to a provider entry: a `useValue`, a `useExisting`
redirection, a `useFactory`, or a plain class provider.  Only the recipes
the claims inspect carry data. -/
inductive ProviderRecipe where
  | valueOptions (o : ExtraOptions)
  | valueRoutes (rs : List Route)
  | existingPreloading (sel : PreloadSelection)
  | existingRouterInit
  | factoryGuard
  | factoryLocationStrategy
  | factoryRouter
  | factoryRootRoute
  | factoryAppInit
  | factoryBootstrapListener
  | classProvider
deriving Repr, DecidableEq

/-- One entry of an Angular `providers` array. -/
structure ProviderEntry where
  provide : Token
  recipe : ProviderRecipe
  multi : Bool := false
deriving Repr, DecidableEq

/-- `ROUTER_PROVIDERS` (lines 54-66), in source order.  The baseline
`ROUTER_CONFIGURATION` value is `{enableTracing: false}`. -/
def ROUTER_PROVIDERS : List ProviderEntry := [
  ⟨Token.locationTok, ProviderRecipe.classProvider, false⟩,
  ⟨Token.urlSerializer, ProviderRecipe.classProvider, false⟩,
  ⟨Token.routerTok, ProviderRecipe.factoryRouter, false⟩,
  ⟨Token.routerOutletMap, ProviderRecipe.classProvider, false⟩,
  ⟨Token.activatedRoute, ProviderRecipe.factoryRootRoute, false⟩,
  ⟨Token.ngModuleFactoryLoader, ProviderRecipe.classProvider, false⟩,
  ⟨Token.routerPreloader, ProviderRecipe.classProvider, false⟩,
  ⟨Token.noPreloading, ProviderRecipe.classProvider, false⟩,
  ⟨Token.preloadAllModules, ProviderRecipe.classProvider, false⟩,
  ⟨Token.routerConfiguration,
    ProviderRecipe.valueOptions { enableTracing := some false }, false⟩]

/-- `provideRoutes` (lines 198-203): two multi-providers carrying the
contributed route table. -/
def provideRoutes (routes : List Route) : List ProviderEntry := [
  ⟨Token.analyzeForEntryComponents, ProviderRecipe.valueRoutes routes, true⟩,
  ⟨Token.routesTok, ProviderRecipe.valueRoutes routes, true⟩]

/-- `provideRouterInitializer` (lines 340-360). -/
def provideRouterInitializer : List ProviderEntry := [
  ⟨Token.routerInitializerClass, ProviderRecipe.classProvider, false⟩,
  ⟨Token.appInit, ProviderRecipe.factoryAppInit, true⟩,
  ⟨Token.routerInit, ProviderRecipe.factoryBootstrapListener, false⟩,
  ⟨Token.appBootstrapListenerTok, ProviderRecipe.existingRouterInit, true⟩]

/-- The `useExisting` target of the `PreloadingStrategy` provider
(lines 151-155): `config && config.preloadingStrategy ?
config.preloadingStrategy : NoPreloading`. -/
def selectPreloading (config : Option ExtraOptions) : PreloadSelection :=
  match config with
  | some c =>
      match c.preloadingStrategy with
      | some t => PreloadSelection.custom t
      | none => PreloadSelection.noPreloading
  | none => PreloadSelection.noPreloading

/-- The providers list of `RouterModule.forRoot(routes, config?)`
(lines 135-159), in source order.  `config ? config : {}` is the
`getD` of the optional argument. -/
def forRoot (routes : List Route) (config : Option ExtraOptions) : List ProviderEntry :=
  ROUTER_PROVIDERS ++ provideRoutes routes ++
  [⟨Token.routerForRootGuard, ProviderRecipe.factoryGuard, false⟩,
   ⟨Token.routerConfiguration,
     ProviderRecipe.valueOptions (config.getD ExtraOptions.empty), false⟩,
   ⟨Token.locationStrategy, ProviderRecipe.factoryLocationStrategy, false⟩,
   ⟨Token.preloadingStrategyTok,
     ProviderRecipe.existingPreloading (selectPreloading config), false⟩] ++
  provideRouterInitializer

/-- The providers list of `RouterModule.forChild(routes)` (lines 164-166). -/
def forChild (routes : List Route) : List ProviderEntry :=
  provideRoutes routes

/-- Hierarchical DI resolution of the effective `ROUTER_CONFIGURATION`
value within one provider list: for a non-multi token, the last
registration wins. -/
def resolveOptions (ps : List ProviderEntry) : Option ExtraOptions :=
  ps.foldl
    (fun acc p =>
      match p.recipe with
      | ProviderRecipe.valueOptions o =>
          if p.provide = Token.routerConfiguration then some o else acc
      | _ => acc)
    none

/-- The `useExisting` target resolved for `PreloadingStrategy`
(last registration wins). -/
def resolvePreloading (ps : List ProviderEntry) : Option PreloadSelection :=
  ps.foldl
    (fun acc p =>
      match p.recipe with
      | ProviderRecipe.existingPreloading sel =>
          if p.provide = Token.preloadingStrategyTok then some sel else acc
      | _ => acc)
    none

/-! ## The startup coordinator (`RouterInitializer`, lines 276-328).

The `resultOfPreactivationDone` subject and the promise `res` held open by
`appInitializer` are made explicit state.  `SubjectState` follows RxJS
`Subject` semantics: `next` after `complete` emits nothing. -/

/-- The observable state of the `resultOfPreactivationDone` subject: the
values it has emitted, in order, and whether it has completed. -/
structure SubjectState where
  emitted : List (Option RouterStateSnapshot)
  completed : Bool
deriving Repr, DecidableEq

/-- A fresh `new Subject()`. -/
def SubjectState.fresh : SubjectState := { emitted := [], completed := false }

/-- `subject.next(v)`: emits `v` unless the subject has completed. -/
def SubjectState.next (st : SubjectState) (v : Option RouterStateSnapshot) : SubjectState :=
  if st.completed then st else { st with emitted := st.emitted ++ [v] }

/-- `subject.complete()`. -/
def SubjectState.complete (st : SubjectState) : SubjectState :=
  { st with completed := true }

/-- The joint state of one `RouterInitializer` instance and the router
operations it invokes.  `earlyResolved` records whether the `resolve` of
the promise `res` returned by `appInitializer` has been invoked (the
early-phase hook's computation has settled); `started` records that the
`appInitializer` body has run (the host registers it once). -/
structure InitState where
  started : Bool
  initSnapshot : Option RouterStateSnapshot
  resultOfPreactivationDone : SubjectState
  earlyResolved : Bool
  hookInstalled : Bool
  listenOnly : Bool
  initialNavigationStarted : Bool
  preloadingSetUp : Bool
  rootComponentTypeReset : Option ComponentType
deriving Repr, DecidableEq

/-- The state at construction of the `RouterInitializer` singleton. -/
def InitState.start : InitState :=
  { started := false, initSnapshot := none,
    resultOfPreactivationDone := SubjectState.fresh, earlyResolved := false,
    hookInstalled := false, listenOnly := false,
    initialNavigationStarted := false, preloadingSetUp := false,
    rootComponentTypeReset := none }

/-- The body of `appInitializer` (lines 285-310) after the optional
location-ready promise has settled: with `initialNavigation === false` it
only calls `router.setUpLocationChangeListener()`; otherwise it installs
the `afterPreactivation` interception and calls
`router.initialNavigation()`.  Note that on the `=== false` branch nothing
invokes `resolve`, so `earlyResolved` stays as it was. -/
def appInitializerStep (opts : ExtraOptions) (st : InitState) : InitState :=
  if opts.initialNavigation = some false then
    { st with started := true, listenOnly := true }
  else
    { st with started := true, hookInstalled := true,
              initialNavigationStarted := true }

/-- What the `afterPreactivation` interception returns to the router:
either the pending `resultOfPreactivationDone` (first call), or `of(s)`,
the immediately-available snapshot. -/
inductive HookResult where
  | awaitResult
  | immediate (s : RouterStateSnapshot)
deriving Repr, DecidableEq

/-- The interception installed on `router.hooks.afterPreactivation`
(lines 294-305): on the first call (`!this.initSnapshot`) it captures the
snapshot, invokes `resolve(true)` and returns the subject; on every later
call it returns `of(s)` and changes nothing. -/
def afterPreactivation (st : InitState) (s : RouterStateSnapshot) :
    InitState × HookResult :=
  if st.initSnapshot.isNone then
    ({ st with initSnapshot := some s, earlyResolved := true },
     HookResult.awaitResult)
  else
    (st, HookResult.immediate s)

/-- `bootstrapListener` (lines 313-327): a no-op unless the bootstrapped
component reference is the application's first component; for the root
component it sets up preloading, resets the router's root component type,
and emits-then-completes `resultOfPreactivationDone` with the captured
`initSnapshot`. -/
def bootstrapListener (isRootComponent : Bool) (rootType : ComponentType)
    (st : InitState) : InitState :=
  if isRootComponent then
    { st with preloadingSetUp := true,
              rootComponentTypeReset := some rootType,
              resultOfPreactivationDone :=
                (st.resultOfPreactivationDone.next st.initSnapshot).complete }
  else st

/-- Iterating the interception over a sequence of navigations, collecting
each navigation's hook result. -/
def runNavs (st : InitState) : List RouterStateSnapshot → InitState × List HookResult
  | [] => (st, [])
  | s :: ss =>
      let p := afterPreactivation st s
      let q := runNavs p.1 ss
      (q.1, p.2 :: q.2)

/-! ### Protocol traces.

A run of the protocol is a list of events.  An event is permitted exactly
under the spec's ordering constraints: the host runs the registered
`APP_INITIALIZER` once; the router invokes `afterPreactivation` only if the
interception is installed; the host schedules the bootstrap listener only
strictly after the early-phase hook's computation has settled. -/

/-- The atomic events of the two-phase startup protocol. -/
inductive ProtocolEvent where
  | init (opts : ExtraOptions)
  | preact (s : RouterStateSnapshot)
  | bootstrap (isRoot : Bool) (t : ComponentType)
deriving Repr, DecidableEq

/-- The state transition of one protocol event. -/
def stepEvent (st : InitState) : ProtocolEvent → InitState
  | ProtocolEvent.init opts => appInitializerStep opts st
  | ProtocolEvent.preact s => (afterPreactivation st s).1
  | ProtocolEvent.bootstrap b t => bootstrapListener b t st

/-- Whether an event is permitted in a state under the spec's ordering. -/
def permitted (st : InitState) : ProtocolEvent → Bool
  | ProtocolEvent.init _ => !st.started
  | ProtocolEvent.preact _ => st.hookInstalled
  | ProtocolEvent.bootstrap _ _ => st.earlyResolved

/-- A trace is valid from a state when every event is permitted where it
occurs. -/
def validFrom (st : InitState) : List ProtocolEvent → Bool
  | [] => true
  | e :: es => permitted st e && validFrom (stepEvent st e) es

/-- Running a trace from a state. -/
def runTrace (st : InitState) (tr : List ProtocolEvent) : InitState :=
  tr.foldl stepEvent st

/-! ## Theorems -/

/-- C6: for every platform location, base-href string and options record,
`provideLocationStrategy` returns the fragment-based (hash) strategy
seeded with the base href exactly when `useHash` is (truthily) true, and
the path-based strategy seeded with the base href otherwise; being a pure
function of its arguments it is deterministic and only constructs the
strategy value. -/
theorem c6_provideLocationStrategy (p : PlatformLoc) (b : String)
    (options : ExtraOptions) :
    ((provideLocationStrategy p b options).isHashBased = true ↔
       options.useHash = some true) ∧
    (provideLocationStrategy p b options).seededBaseHref = b ∧
    (provideLocationStrategy p b options).seededPlatformLoc = p := by
  unfold provideLocationStrategy
  by_cases h : options.useHash = some true <;>
    simp [h, LocationStrategy.isHashBased, LocationStrategy.seededBaseHref,
      LocationStrategy.seededPlatformLoc]

/-- Closed instance of `c6_provideLocationStrategy` evaluated at a hash
configuration. -/
theorem c6_provideLocationStrategy_witness :
    ((provideLocationStrategy 3 "base" { useHash := some true }).isHashBased = true ↔
       ExtraOptions.useHash { useHash := some true } = some true) ∧
    (provideLocationStrategy 3 "base" { useHash := some true }).seededBaseHref = "base" ∧
    (provideLocationStrategy 3 "base" { useHash := some true }).seededPlatformLoc = 3 :=
  c6_provideLocationStrategy 3 "base" { useHash := some true }

/-- C5: the root guard errors, with the descriptive duplicate-registration
message, for every non-null ancestor-scoped `Router`, and returns the
opaque marker `"guarded"` for a null one; `forRoot` installs the guard,
while `forChild` installs neither the guard nor a `Router` provider, so a
single root registration (null ancestor lookup) followed by any number of
child registrations never fails. -/
theorem c5_provideForRootGuard :
    (∀ r : RouterHandle,
       provideForRootGuard (some r) =
         Except.error
           "RouterModule.forRoot() called twice. Lazy loaded modules should use RouterModule.forChild() instead.") ∧
    provideForRootGuard none = Except.ok "guarded" ∧
    (∀ routes config,
       ProviderEntry.mk Token.routerForRootGuard ProviderRecipe.factoryGuard false ∈
         forRoot routes config) ∧
    (∀ routes : List Route, ∀ p ∈ forChild routes,
       p.provide ≠ Token.routerForRootGuard ∧ p.provide ≠ Token.routerTok) := by
  refine ⟨fun r => rfl, rfl, ?_, ?_⟩
  · intro routes config
    simp [forRoot, ROUTER_PROVIDERS, provideRoutes, provideRouterInitializer]
  · intro routes p hp
    simp only [forChild, provideRoutes, List.mem_cons, List.mem_singleton] at hp
    rcases hp with h | h | h
    · subst h; exact ⟨by simp, by simp⟩
    · subst h; exact ⟨by simp, by simp⟩
    · cases h

/-- Closed instance of `c5_provideForRootGuard`: a second root
registration (ancestor lookup yields router 7) fails with the descriptive
error. -/
theorem c5_provideForRootGuard_witness :
    provideForRootGuard (some 7) =
      Except.error
        "RouterModule.forRoot() called twice. Lazy loaded modules should use RouterModule.forChild() instead." :=
  c5_provideForRootGuard.1 7

/-- C7: within the `forRoot` provider list, the `PreloadingStrategy`
provider's `useExisting` target is the configured `preloadingStrategy`
token when the config record supplies one, and `NoPreloading` when the
config argument is absent or supplies none; the selection is a fixed
value computed once in `forRoot`. -/
theorem c7_preloadingSelection (routes : List Route) (config : Option ExtraOptions) :
    resolvePreloading (forRoot routes config) = some (selectPreloading config) ∧
    (∀ c : ExtraOptions, ∀ t, c.preloadingStrategy = some t →
       selectPreloading (some c) = PreloadSelection.custom t) ∧
    (∀ c : ExtraOptions, c.preloadingStrategy = none →
       selectPreloading (some c) = PreloadSelection.noPreloading) ∧
    selectPreloading none = PreloadSelection.noPreloading := by
  refine ⟨rfl, ?_, ?_, rfl⟩
  · intro c t h; simp [selectPreloading, h]
  · intro c h; simp [selectPreloading, h]

/-- Closed instance of `c7_preloadingSelection` at a config carrying
custom preloading token 9. -/
theorem c7_preloadingSelection_witness :
    resolvePreloading (forRoot [4] (some { preloadingStrategy := some 9 })) =
      some (selectPreloading (some { preloadingStrategy := some 9 })) ∧
    selectPreloading (some { preloadingStrategy := some 9 }) =
      PreloadSelection.custom 9 := by
  refine ⟨(c7_preloadingSelection [4] (some { preloadingStrategy := some 9 })).1, ?_⟩
  exact (c7_preloadingSelection [4] (some { preloadingStrategy := some 9 })).2.1
    { preloadingStrategy := some 9 } 9 rfl

/-- C8: `setupRouter` wires the router's config to the flattening of the
contributed route tables, the flattening is their concatenation in
registration order, and the error handler is overridden exactly when
`opts.errorHandler` is present, the constructor default remaining in
place otherwise. -/
theorem c8_setupRouter (config : List (List Route)) (opts : ExtraOptions) :
    (setupRouter config opts).config = flatten config ∧
    flatten config = config.foldr (· ++ ·) [] ∧
    (∀ h, opts.errorHandler = some h → (setupRouter config opts).errorHandler = h) ∧
    (opts.errorHandler = none →
       (setupRouter config opts).errorHandler = defaultErrorHandler) := by
  refine ⟨?_, ?_, ?_, ?_⟩
  · unfold setupRouter
    cases h : opts.errorHandler <;>
      by_cases ht : opts.enableTracing = some true <;> simp [h, ht, newRouter]
  · induction config with
    | nil => rfl
    | cons hd tl ih => simp [flatten] at ih ⊢; exact ih
  · intro h hh
    unfold setupRouter
    by_cases ht : opts.enableTracing = some true <;> simp [hh, ht, newRouter]
  · intro hh
    unfold setupRouter
    by_cases ht : opts.enableTracing = some true <;> simp [hh, ht, newRouter]

/-- Closed instance of `c8_setupRouter`: two route tables and an
error-handler override. -/
theorem c8_setupRouter_witness :
    (setupRouter [[1, 2], [3]] { errorHandler := some 5 }).config =
      flatten [[1, 2], [3]] ∧
    (setupRouter [[1, 2], [3]] { errorHandler := some 5 }).errorHandler = 5 :=
  ⟨(c8_setupRouter [[1, 2], [3]] { errorHandler := some 5 }).1,
   (c8_setupRouter [[1, 2], [3]] { errorHandler := some 5 }).2.2.1 5 rfl⟩

/-- C10: `forRoot` without a config argument provides `{}` as the
effective `ROUTER_CONFIGURATION`, overriding the `{enableTracing: false}`
baseline of `ROUTER_PROVIDERS` by last-registration-wins resolution; under
`{}` no tracing subscriber is installed, the default error handler stays,
the path-based strategy is chosen, the initial navigation is performed
(not skipped), and `NoPreloading` is the preloading selection. -/
theorem c10_defaultConfiguration (routes : List Route) (p : PlatformLoc)
    (b : String) (config : List (List Route)) :
    resolveOptions (forRoot routes none) = some ExtraOptions.empty ∧
    resolveOptions ROUTER_PROVIDERS = some { enableTracing := some false } ∧
    (setupRouter config ExtraOptions.empty).subscribers = [] ∧
    (setupRouter config ExtraOptions.empty).errorHandler = defaultErrorHandler ∧
    provideLocationStrategy p b ExtraOptions.empty = LocationStrategy.path p b ∧
    (appInitializerStep ExtraOptions.empty InitState.start).initialNavigationStarted
      = true ∧
    (appInitializerStep ExtraOptions.empty InitState.start).listenOnly = false ∧
    resolvePreloading (forRoot routes none) = some PreloadSelection.noPreloading := by
  refine ⟨rfl, rfl, rfl, rfl, rfl, rfl, rfl, rfl⟩

/-- Once a snapshot has been captured, every further navigation through the
interception returns its snapshot immediately and leaves the state fixed. -/
lemma runNavs_of_captured (st : InitState) (v : RouterStateSnapshot)
    (h : st.initSnapshot = some v) (ss : List RouterStateSnapshot) :
    runNavs st ss = (st, ss.map HookResult.immediate) := by
  induction ss with
  | nil => rfl
  | cons s ss ih => simp [runNavs, afterPreactivation, h, ih]

/-- The `appInitializer` body never touches the subject, on either branch. -/
lemma appInitializerStep_subject (opts : ExtraOptions) (st : InitState) :
    (appInitializerStep opts st).resultOfPreactivationDone =
      st.resultOfPreactivationDone := by
  unfold appInitializerStep
  by_cases h : opts.initialNavigation = some false <;> simp [h]

/-- The interception never touches the subject. -/
lemma afterPreactivation_subject (st : InitState) (s : RouterStateSnapshot) :
    (afterPreactivation st s).1.resultOfPreactivationDone =
      st.resultOfPreactivationDone := by
  unfold afterPreactivation
  by_cases h : st.initSnapshot.isNone = true <;> simp [h]

/-- C1: in a run where the early-phase hook installed the interception
(`initialNavigation` is not `false`), the first interception call captures
its snapshot into `initSnapshot`, settles the held-open promise and
returns the pending result; every later call returns its snapshot as an
immediate result and leaves `initSnapshot` and the subject untouched,
however many navigations follow. -/
theorem c1_firstNavigationOnly (opts : ExtraOptions)
    (hopts : opts.initialNavigation ≠ some false)
    (s : RouterStateSnapshot) (ss : List RouterStateSnapshot) :
    (appInitializerStep opts InitState.start).hookInstalled = true ∧
    runNavs (appInitializerStep opts InitState.start) (s :: ss) =
      ({ (appInitializerStep opts InitState.start) with
           initSnapshot := some s, earlyResolved := true },
        HookResult.awaitResult :: ss.map HookResult.immediate) := by
  have hstep : appInitializerStep opts InitState.start =
      { InitState.start with
          started := true
          hookInstalled := true
          initialNavigationStarted := true } := by
    unfold appInitializerStep
    rw [if_neg hopts]
  rw [hstep]
  refine ⟨rfl, ?_⟩
  have hfirst : afterPreactivation
      { InitState.start with
          started := true
          hookInstalled := true
          initialNavigationStarted := true } s =
      ({ InitState.start with
           started := true
           hookInstalled := true
           initialNavigationStarted := true
           initSnapshot := some s
           earlyResolved := true }, HookResult.awaitResult) := rfl
  simp only [runNavs, hfirst]
  rw [runNavs_of_captured
    { InitState.start with
        started := true
        hookInstalled := true
        initialNavigationStarted := true
        initSnapshot := some s
        earlyResolved := true } s rfl]

/-- Closed instance of `c1_firstNavigationOnly`: empty options, first
navigation snapshot 1, two further navigations. -/
theorem c1_firstNavigationOnly_witness :
    (ExtraOptions.initialNavigation ExtraOptions.empty ≠ some false) ∧
    ((appInitializerStep ExtraOptions.empty InitState.start).hookInstalled = true ∧
     runNavs (appInitializerStep ExtraOptions.empty InitState.start) (1 :: [2, 3]) =
       ({ (appInitializerStep ExtraOptions.empty InitState.start) with
            initSnapshot := some 1, earlyResolved := true },
         HookResult.awaitResult :: [2, 3].map HookResult.immediate)) :=
  ⟨by decide, c1_firstNavigationOnly ExtraOptions.empty (by decide) 1 [2, 3]⟩

/-- The protocol invariant behind C2: a settled early phase means a
captured snapshot; an uncompleted subject has emitted nothing; at most one
emission ever happens; an emission implies a captured snapshot. -/
def ProtocolInv (st : InitState) : Prop :=
  (st.earlyResolved = true → st.initSnapshot.isSome = true) ∧
  (st.resultOfPreactivationDone.completed = false →
     st.resultOfPreactivationDone.emitted = []) ∧
  st.resultOfPreactivationDone.emitted.length ≤ 1 ∧
  (st.resultOfPreactivationDone.emitted ≠ [] → st.initSnapshot.isSome = true)

lemma protocolInv_start : ProtocolInv InitState.start := by
  refine ⟨?_, ?_, ?_, ?_⟩ <;> simp [InitState.start, SubjectState.fresh]

lemma protocolInv_step (st : InitState) (e : ProtocolEvent)
    (hperm : permitted st e = true) (hinv : ProtocolInv st) :
    ProtocolInv (stepEvent st e) := by
  obtain ⟨h1, h2, h3, h4⟩ := hinv
  cases e with
  | init opts =>
      show ProtocolInv (appInitializerStep opts st)
      unfold appInitializerStep
      by_cases h : opts.initialNavigation = some false
      · rw [if_pos h]; exact ⟨h1, h2, h3, h4⟩
      · rw [if_neg h]; exact ⟨h1, h2, h3, h4⟩
  | preact s =>
      show ProtocolInv (afterPreactivation st s).1
      unfold afterPreactivation
      by_cases h : st.initSnapshot.isNone = true
      · rw [if_pos h]
        exact ⟨fun _ => rfl, h2, h3, fun _ => rfl⟩
      · rw [if_neg h]
        exact ⟨h1, h2, h3, h4⟩
  | bootstrap b t =>
      have hsnap : st.initSnapshot.isSome = true := h1 hperm
      show ProtocolInv (bootstrapListener b t st)
      unfold bootstrapListener
      cases b with
      | false =>
          rw [if_neg Bool.false_ne_true]
          exact ⟨h1, h2, h3, h4⟩
      | true =>
          rw [if_pos rfl]
          unfold SubjectState.next SubjectState.complete
          by_cases hc : st.resultOfPreactivationDone.completed = true
          · rw [if_pos hc]
            exact ⟨h1, fun hcf => Bool.noConfusion hcf, h3, fun _ => hsnap⟩
          · rw [if_neg hc]
            have hemp := h2 ((Bool.not_eq_true _) ▸ hc)
            refine ⟨h1, fun hcf => Bool.noConfusion hcf, ?_, fun _ => hsnap⟩
            show (st.resultOfPreactivationDone.emitted ++ [st.initSnapshot]).length ≤ 1
            rw [hemp]
            simp

lemma protocolInv_run (tr : List ProtocolEvent) (st : InitState)
    (hval : validFrom st tr = true) (hinv : ProtocolInv st) :
    ProtocolInv (runTrace st tr) := by
  induction tr generalizing st with
  | nil => exact hinv
  | cons e es ih =>
      simp only [validFrom, Bool.and_eq_true] at hval
      exact ih (stepEvent st e) hval.2 (protocolInv_step st e hval.1 hinv)

/-- C2: along every trace permitted by the spec's ordering, the
`resultOfPreactivationDone` subject emits at most once; whenever it has
emitted, `initSnapshot` is set; and any permitted next step that leaves
the subject resolved starts from a state whose snapshot was already
captured — the capture strictly precedes the resolution. -/
theorem c2_resolveAfterCapture (tr : List ProtocolEvent)
    (hval : validFrom InitState.start tr = true) :
    (runTrace InitState.start tr).resultOfPreactivationDone.emitted.length ≤ 1 ∧
    ((runTrace InitState.start tr).resultOfPreactivationDone.emitted ≠ [] →
       (runTrace InitState.start tr).initSnapshot.isSome = true) ∧
    (∀ e, permitted (runTrace InitState.start tr) e = true →
       (stepEvent (runTrace InitState.start tr) e).resultOfPreactivationDone.emitted
           ≠ [] →
       (runTrace InitState.start tr).initSnapshot.isSome = true) := by
  obtain ⟨h1, h2, h3, h4⟩ :=
    protocolInv_run tr InitState.start hval protocolInv_start
  refine ⟨h3, h4, ?_⟩
  intro e hperm hne
  cases e with
  | init opts =>
      rw [show stepEvent (runTrace InitState.start tr) (ProtocolEvent.init opts) =
            appInitializerStep opts (runTrace InitState.start tr) from rfl,
          appInitializerStep_subject] at hne
      exact h4 hne
  | preact s =>
      rw [show stepEvent (runTrace InitState.start tr) (ProtocolEvent.preact s) =
            (afterPreactivation (runTrace InitState.start tr) s).1 from rfl,
          afterPreactivation_subject] at hne
      exact h4 hne
  | bootstrap b t => exact h1 hperm

/-- Closed instance of `c2_resolveAfterCapture` on the canonical run:
initialize, first preactivation, root bootstrap. -/
theorem c2_resolveAfterCapture_witness :
    validFrom InitState.start
      [ProtocolEvent.init ExtraOptions.empty, ProtocolEvent.preact 5,
       ProtocolEvent.bootstrap true 7] = true ∧
    (runTrace InitState.start
      [ProtocolEvent.init ExtraOptions.empty, ProtocolEvent.preact 5,
       ProtocolEvent.bootstrap true 7]).resultOfPreactivationDone.emitted.length ≤ 1 :=
  ⟨by decide,
   (c2_resolveAfterCapture
     [ProtocolEvent.init ExtraOptions.empty, ProtocolEvent.preact 5,
      ProtocolEvent.bootstrap true 7] (by decide)).1⟩

/-- C3, as the code actually behaves: with `initialNavigation === false`
the early-phase hook puts the router into listen-only mode, installs no
interception and starts no navigation — but nothing on this branch ever
invokes the `resolve` captured for the returned promise, so the early
phase never settles and, under the spec's ordering, no further protocol
event is even permitted: the trace ends there, with `earlyResolved`
still false.  (The claim and spec say the hook's computation settles
immediately; the code leaves it pending forever.) -/
theorem c3_skipNavigationNeverSettles (tr : List ProtocolEvent)
    (hval : validFrom InitState.start
      (ProtocolEvent.init { initialNavigation := some false } :: tr) = true) :
    tr = [] ∧
    (appInitializerStep { initialNavigation := some false }
        InitState.start).listenOnly = true ∧
    (appInitializerStep { initialNavigation := some false }
        InitState.start).hookInstalled = false ∧
    (appInitializerStep { initialNavigation := some false }
        InitState.start).initialNavigationStarted = false ∧
    (appInitializerStep { initialNavigation := some false }
        InitState.start).earlyResolved = false := by
  refine ⟨?_, rfl, rfl, rfl, rfl⟩
  cases tr with
  | nil => rfl
  | cons e es =>
      exfalso
      simp only [validFrom, Bool.and_eq_true] at hval
      obtain ⟨-, hperm, -⟩ := hval
      cases e with
      | init o => exact Bool.noConfusion hperm
      | preact s => exact Bool.noConfusion hperm
      | bootstrap b t => exact Bool.noConfusion hperm

/-- Closed instance of `c3_skipNavigationNeverSettles` on the one-event
run. -/
theorem c3_skipNavigationNeverSettles_witness :
    validFrom InitState.start
      [ProtocolEvent.init { initialNavigation := some false }] = true ∧
    (appInitializerStep { initialNavigation := some false }
        InitState.start).earlyResolved = false :=
  ⟨by decide, (c3_skipNavigationNeverSettles [] (by decide)).2.2.2.2⟩

/-- C4: `bootstrapListener` is a no-op for a non-root component reference;
for the root component it sets up preloading, rebinds the router's root
component type, and emits the captured `initSnapshot` on
`resultOfPreactivationDone` and completes it, after which any further
resolution attempt leaves the emissions unchanged. -/
theorem c4_bootstrapListener (st : InitState) (t u : ComponentType) :
    bootstrapListener false t st = st ∧
    (bootstrapListener true t st).preloadingSetUp = true ∧
    (bootstrapListener true t st).rootComponentTypeReset = some t ∧
    (bootstrapListener true t st).resultOfPreactivationDone =
      (st.resultOfPreactivationDone.next st.initSnapshot).complete ∧
    (st.resultOfPreactivationDone.completed = false →
       (bootstrapListener true t st).resultOfPreactivationDone.emitted =
         st.resultOfPreactivationDone.emitted ++ [st.initSnapshot]) ∧
    (bootstrapListener true u
        (bootstrapListener true t st)).resultOfPreactivationDone.emitted =
      (bootstrapListener true t st).resultOfPreactivationDone.emitted := by
  refine ⟨rfl, rfl, rfl, rfl, ?_, ?_⟩
  · intro hc
    show ((st.resultOfPreactivationDone.next st.initSnapshot).complete).emitted = _
    unfold SubjectState.next SubjectState.complete
    rw [if_neg (by simp [hc])]
  · unfold bootstrapListener SubjectState.next SubjectState.complete
    by_cases hc : st.resultOfPreactivationDone.completed = true <;> simp [hc]

/-- Closed instance of `c4_bootstrapListener`: a fresh-subject state after
a captured snapshot, root type 3, repeated attempt with type 4. -/
theorem c4_bootstrapListener_witness :
    (SubjectState.completed
        (InitState.resultOfPreactivationDone InitState.start) = false) ∧
    (bootstrapListener true 3 InitState.start).resultOfPreactivationDone.emitted =
      InitState.start.resultOfPreactivationDone.emitted ++
        [InitState.start.initSnapshot] ∧
    (bootstrapListener true 4
        (bootstrapListener true 3 InitState.start)).resultOfPreactivationDone.emitted =
      (bootstrapListener true 3 InitState.start).resultOfPreactivationDone.emitted :=
  ⟨by decide,
   (c4_bootstrapListener InitState.start 3 4).2.2.2.2.1 (by decide),
   (c4_bootstrapListener InitState.start 3 4).2.2.2.2.2⟩

/-- Delivery of one emission splits off the head subscriber. -/
lemma deliverEvent_cons (s : Subscriber) (subs : List Subscriber) (e : Event) :
    deliverEvent (s :: subs) e = (s, e) :: deliverEvent subs e := rfl

/-- Delivery of a sequence of events, event by event. -/
lemma deliverAll_cons (subs : List Subscriber) (e : Event) (es : List Event) :
    deliverAll subs (e :: es) = deliverEvent subs e ++ deliverAll subs es := rfl

/-- Non-tracing subscribers all pass the non-tracing filter. -/
lemma filter_deliverEvent_other (os : List Nat) (e : Event) :
    (deliverEvent (os.map Subscriber.other) e).filter
        (fun p => p.1 ≠ Subscriber.tracing) =
      deliverEvent (os.map Subscriber.other) e := by
  induction os with
  | nil => rfl
  | cons o os ih => simp only [List.map_cons, deliverEvent_cons] at ih ⊢
                    rw [List.filter_cons_of_pos (by simp), ih]

/-- No delivery to a non-tracing subscriber passes the tracing filter. -/
lemma filter_deliverEvent_tracing (os : List Nat) (e : Event) :
    (deliverEvent (os.map Subscriber.other) e).filter
        (fun p => p.1 = Subscriber.tracing) = [] := by
  induction os with
  | nil => rfl
  | cons o os ih => simp only [List.map_cons, deliverEvent_cons] at ih ⊢
                    rw [List.filter_cons_of_neg (by simp), ih]

/-- With the tracing subscriber at the head of the subscription list, the
deliveries to the remaining (non-tracing) subscribers are exactly the
deliveries the same events produce without the tracing subscriber. -/
lemma otherDeliveries_eq (os : List Nat) (events : List Event) :
    (deliverAll (Subscriber.tracing :: os.map Subscriber.other) events).filter
        (fun p => p.1 ≠ Subscriber.tracing) =
      deliverAll (os.map Subscriber.other) events := by
  induction events with
  | nil => rfl
  | cons e es ih =>
      rw [deliverAll_cons, deliverAll_cons, List.filter_append,
        deliverEvent_cons, ih, List.filter_cons_of_neg (by simp),
        filter_deliverEvent_other]

/-- Without a tracing subscriber the non-tracing filter keeps every
delivery. -/
lemma otherDeliveries_self (os : List Nat) (events : List Event) :
    (deliverAll (os.map Subscriber.other) events).filter
        (fun p => p.1 ≠ Subscriber.tracing) =
      deliverAll (os.map Subscriber.other) events := by
  induction events with
  | nil => rfl
  | cons e es ih =>
      rw [deliverAll_cons, List.filter_append, ih, filter_deliverEvent_other]

/-- Without a tracing subscriber, events produce no tracing deliveries. -/
lemma tracing_deliveries_none (os : List Nat) (events : List Event) :
    (deliverAll (os.map Subscriber.other) events).filter
        (fun p => p.1 = Subscriber.tracing) = [] := by
  induction events with
  | nil => rfl
  | cons e es ih =>
      rw [deliverAll_cons, List.filter_append, ih,
        filter_deliverEvent_tracing]
      rfl

/-- With the tracing subscriber at the head, each event is delivered to it
exactly once, in emission order. -/
lemma tracing_deliveries_all (os : List Nat) (events : List Event) :
    (deliverAll (Subscriber.tracing :: os.map Subscriber.other) events).filter
        (fun p => p.1 = Subscriber.tracing) =
      events.map (fun e => (Subscriber.tracing, e)) := by
  induction events with
  | nil => rfl
  | cons e es ih =>
      rw [deliverAll_cons, List.filter_append, deliverEvent_cons, ih,
        List.filter_cons_of_pos (by simp), filter_deliverEvent_tracing]
      rfl

/-- The subscriber list `setupRouter` leaves on the router, by tracing
flag. -/
lemma setupRouter_subscribers (config : List (List Route)) (opts : ExtraOptions) :
    (setupRouter config opts).subscribers =
      (if opts.enableTracing = some true then [Subscriber.tracing] else []) := by
  unfold setupRouter
  cases h : opts.errorHandler <;>
    by_cases ht : opts.enableTracing = some true <;> simp [h, ht, newRouter]

/-- C9: the tracing subscription is observationally passive.  For the same
route config, the same remaining options and the same later (non-tracing)
subscribers, the router produced with `enableTracing: true` and the one
produced with `enableTracing: false` agree on config and error handler,
and every non-tracing subscriber receives exactly the same deliveries in
the same order; with tracing on, the console log has exactly one entry per
emitted event, in emission order, and with tracing off it is empty. -/
theorem c9_tracingPassive (config : List (List Route)) (opts : ExtraOptions)
    (os : List Nat) (events : List Event) :
    (subscribeAll (setupRouter config { opts with enableTracing := some true })
        (os.map Subscriber.other)).config =
      (subscribeAll (setupRouter config { opts with enableTracing := some false })
        (os.map Subscriber.other)).config ∧
    (subscribeAll (setupRouter config { opts with enableTracing := some true })
        (os.map Subscriber.other)).errorHandler =
      (subscribeAll (setupRouter config { opts with enableTracing := some false })
        (os.map Subscriber.other)).errorHandler ∧
    otherDeliveries
        (subscribeAll (setupRouter config { opts with enableTracing := some true })
          (os.map Subscriber.other)) events =
      otherDeliveries
        (subscribeAll (setupRouter config { opts with enableTracing := some false })
          (os.map Subscriber.other)) events ∧
    traceLog
        (subscribeAll (setupRouter config { opts with enableTracing := some true })
          (os.map Subscriber.other)) events = events.map logOf ∧
    traceLog
        (subscribeAll (setupRouter config { opts with enableTracing := some false })
          (os.map Subscriber.other)) events = [] := by
  have hsubOn : (subscribeAll
      (setupRouter config { opts with enableTracing := some true })
      (os.map Subscriber.other)).subscribers =
      Subscriber.tracing :: os.map Subscriber.other := by
    simp [subscribeAll, setupRouter_subscribers]
  have hsubOff : (subscribeAll
      (setupRouter config { opts with enableTracing := some false })
      (os.map Subscriber.other)).subscribers = os.map Subscriber.other := by
    simp [subscribeAll, setupRouter_subscribers]
  refine ⟨?_, ?_, ?_, ?_, ?_⟩
  · cases h : opts.errorHandler <;>
      simp [subscribeAll, setupRouter, newRouter, h]
  · cases h : opts.errorHandler <;>
      simp [subscribeAll, setupRouter, newRouter, h]
  · unfold otherDeliveries
    rw [hsubOn, hsubOff, otherDeliveries_eq, otherDeliveries_self]
  · unfold traceLog
    rw [hsubOn, tracing_deliveries_all]
    simp
  · unfold traceLog
    rw [hsubOff, tracing_deliveries_none]
    rfl

end RouterBoot

